import Mathlib

/-!
Shallow embedding of the `excel` adapter module (`src/excel.py`), the
process-pool loader (`src/parallel_openpyxl.py`) and the database layer
(`src/packagetracker/database.py`) of the python-for-excel repository,
together with proofs about the embedded definitions.

Python strings that are inspected character by character are modelled as
`List Char`; Python cell values as the inductive `PyVal`; Python `int`
coordinates as `Int`; a Python function that can raise is modelled with
`Option` (or, at the dispatch level of `read`/`write`, with `Except PyErr`).
-/

/-- A Python value as it appears in a cell of a spreadsheet.
`datetimeOf raw datemode` stands for the opaque result of the xlrd library
call `xlrd.xldate.xldate_as_datetime(raw, datemode)`, and `errorTextOf raw`
for the xlrd library lookup `error_text_from_code[raw]`; both are external
library conversions that the repository only invokes, so they are kept as
constructors applied to the raw stored value. -/
inductive PyVal : Type where
  | pynone : PyVal
  | pybool (b : Bool) : PyVal
  | pyint (n : Int) : PyVal
  | pystr (s : String) : PyVal
  | datetimeOf (raw : PyVal) (datemode : Nat) : PyVal
  | errorTextOf (raw : PyVal) : PyVal
  deriving Repr, DecidableEq

/-- Python truthiness `bool(v)` for the values of `PyVal`:
`None` and zero and the empty string are falsy, a datetime and an
error-text string are truthy. -/
def truthy : PyVal → Bool
  | PyVal.pynone => false
  | PyVal.pybool b => b
  | PyVal.pyint n => n != 0
  | PyVal.pystr s => s != ""
  | PyVal.datetimeOf _ _ => true
  | PyVal.errorTextOf _ => true

/-- Predicate: `c` is an uppercase ASCII letter, the character class `[A-Z]` of the
regular expression in `xl_cell_to_rowcol`. -/
def isUpperAZ (c : Char) : Bool :=
  ('A'.toNat ≤ c.toNat) && (c.toNat ≤ 'Z'.toNat)

/-- Predicate: `c` is an ASCII digit, the character class `\d` of the regular
expression in `xl_cell_to_rowcol` (on the inputs considered here). -/
def isDigit09 (c : Char) : Bool :=
  ('0'.toNat ≤ c.toNat) && (c.toNat ≤ '9'.toNat)

/-- The loop of `xl_cell_to_rowcol` that converts the base-26 column
string to a number: it walks the reversed letter list, adding
`(ord(char) - ord("A") + 1) * 26 ** expn` at each step. -/
def colLoop : List Char → Nat → Nat → Nat
  | [], _, col => col
  | ch :: rest, expn, col =>
      colLoop rest (expn + 1) (col + (ch.toNat - 'A'.toNat + 1) * 26 ^ expn)

/-- The value `col` as computed by `xl_cell_to_rowcol` from the letter group:
the loop over `reversed(col_str)` starting from `expn = 0`, `col = 0`. -/
def colOfLetters (ls : List Char) : Nat :=
  colLoop ls.reverse 0 0

/-- Python `int(row_str)` on a string of decimal digits. -/
def digitsVal (ds : List Char) : Nat :=
  ds.foldl (fun acc d => 10 * acc + (d.toNat - '0'.toNat)) 0

/-- The optional literal `$` of the groups `(\$?)`: consume a leading `$`
when there is one.  When the consumed `$` makes the rest of the pattern
fail, the regex engine retries without it, but a `$` matches neither
`[A-Z]` nor `\d`, so that retry fails as well — consuming the `$`
unconditionally is therefore exact. -/
def stripDollar (cs : List Char) : List Char :=
  match cs with
  | c :: rest => if c = '$' then rest else cs
  | [] => cs

/-- The tail of the regular expression `(\$?)(\d+)` after the letter group:
an optional literal `$` followed by one or more digits, matched greedily.
Returns the digit group (group 4) when the tail matches at the start of
`cs`, `none` when it does not. -/
def matchDollarDigits (cs : List Char) : Option (List Char) :=
  let ds := (stripDollar cs).takeWhile isDigit09
  if ds.isEmpty then none else some ds

/-- The greedy, backtracking match of `([A-Z]{1,3})(\$?)(\d+)` at the start
of `cs`: try a letter group of length `k`, `k-1`, ..., `1`, and for each
require the rest of the pattern to match right after it.  Returns the
letter group (group 2) and the digit group (group 4). -/
def tryLetters (cs : List Char) : Nat → Option (List Char × List Char)
  | 0 => none
  | k + 1 =>
      let ls := cs.take (k + 1)
      if ls.length = k + 1 && ls.all isUpperAZ then
        match matchDollarDigits (cs.drop (k + 1)) with
        | some ds => some (ls, ds)
        | none => tryLetters cs k
      else
        tryLetters cs k

/-- The anchored match of `(\$?)([A-Z]{1,3})(\$?)(\d+)` at the start of
`cs`, as `re.match` performs it: group 2 (letters) and group 4 (digits)
are returned; `none` models a failed match (in Python `match` is then
`None` and the following `match.group(2)` raises). -/
def matchCellRef (cs : List Char) : Option (List Char × List Char) :=
  tryLetters (stripDollar cs) 3

/-- The body of `xl_cell_to_rowcol` after the empty-string short-circuit:
regex match, base-26 conversion of the column letters, `int` conversion of
the row digits, and the 1-index to 0-index shift of both. -/
def cellRefToRowcol (cs : List Char) : Option (Int × Int) :=
  match matchCellRef cs with
  | none => none
  | some (ls, ds) =>
      some ((digitsVal ds : Int) - 1, (colOfLetters ls : Int) - 1)

/-- The function `xl_cell_to_rowcol` from `src/excel.py`: convert a cell reference in
A1 notation to a zero indexed row and column.  `if not cell_str` is the
Python truthiness test, which for a string holds exactly when it is empty.
A `none` result models the `AttributeError` Python raises when the regular
expression does not match. -/
def xl_cell_to_rowcol (cell_str : List Char) : Option (Int × Int) :=
  if cell_str.isEmpty then some (0, 0)
  else cellRefToRowcol cell_str

/-- A `first_cell` / `last_cell` argument of `read` or `write`: either an
A1-notation string or a row/col tuple of Python ints. -/
inductive CellArg : Type where
  | strA (s : List Char) : CellArg
  | tup (r c : Int) : CellArg
  deriving Repr, DecidableEq

/-- The normalisation `read` performs in its xlrd and pyxlsb branches on a
corner argument: a tuple is kept as is; a string is put through
`xl_cell_to_rowcol` and shifted from 0-based to 1-based by adding `(1, 1)`. -/
def cellArgToTuple : CellArg → Option (Int × Int)
  | CellArg.tup r c => some (r, c)
  | CellArg.strA s =>
      match xl_cell_to_rowcol s with
      | none => none
      | some rc => some (rc.1 + 1, rc.2 + 1)

/-- Python `range(a, b)` on ints: the list `a, a+1, ..., b-1`
(empty when `b ≤ a`). -/
def pyRange (a b : Int) : List Int :=
  (List.range (b - a).toNat).map (fun (i : Nat) => a + (i : Int))

/-- The xlrd cell type constant `xlrd.XL_CELL_EMPTY`. -/
def XL_CELL_EMPTY : Nat := 0
/-- The xlrd cell type constant `xlrd.XL_CELL_DATE`. -/
def XL_CELL_DATE : Nat := 3
/-- The xlrd cell type constant `xlrd.XL_CELL_BOOLEAN`. -/
def XL_CELL_BOOLEAN : Nat := 4
/-- The xlrd cell type constant `xlrd.XL_CELL_ERROR`. -/
def XL_CELL_ERROR : Nat := 5
/-- The xlrd cell type constant `xlrd.XL_CELL_BLANK`. -/
def XL_CELL_BLANK : Nat := 6

/-- An xlrd cell: its type code `ctype` and its raw stored `value`. -/
structure XlrdCell : Type where
  ctype : Nat
  value : PyVal
  deriving Repr, DecidableEq

/-- An `xlrd.sheet.Sheet` object as `read` uses it: the data extent
`nrows` × `ncols`, the book's `datemode`, and the cell accessor
`sheet.cell(r, c)` with 0-based coordinates. -/
structure XlrdSheet : Type where
  datemode : Nat
  nrows : Nat
  ncols : Nat
  cell : Int → Int → XlrdCell

/-- The cell-type dispatch in the xlrd branch of `read`
(`src/excel.py` lines 70-82): a date cell goes through
`xlrd.xldate.xldate_as_datetime(value, datemode)`, an empty or blank cell
becomes `None`, an error cell becomes `error_text_from_code[value]`, a
boolean cell becomes `bool(value)`, anything else keeps its stored value. -/
def xlrdCellValue (datemode : Nat) (c : XlrdCell) : PyVal :=
  if c.ctype = XL_CELL_DATE then
    PyVal.datetimeOf c.value datemode
  else if c.ctype = XL_CELL_EMPTY ∨ c.ctype = XL_CELL_BLANK then
    PyVal.pynone
  else if c.ctype = XL_CELL_ERROR then
    PyVal.errorTextOf c.value
  else if c.ctype = XL_CELL_BOOLEAN then
    PyVal.pybool (truthy c.value)
  else
    c.value

/-- The xlrd branch of `read` (`src/excel.py` lines 54-85): default the
missing last cell to `(sheet.nrows, sheet.ncols)`, turn string corners into
1-based tuples, then collect `sheet.cell(r, c)` row-major over
`range(first[0]-1, last[0])` × `range(first[1]-1, last[1])` through the
cell-type dispatch. -/
def readXlrd (sheet : XlrdSheet) (first_cell : CellArg)
    (last_cell : Option CellArg) : Option (List (List PyVal)) :=
  let lastArg : CellArg := match last_cell with
    | none => CellArg.tup (sheet.nrows : Int) (sheet.ncols : Int)
    | some a => a
  match cellArgToTuple first_cell, cellArgToTuple lastArg with
  | some fc, some lc =>
      some ((pyRange (fc.1 - 1) lc.1).map (fun r =>
        (pyRange (fc.2 - 1) lc.2).map (fun c =>
          xlrdCellValue sheet.datemode (sheet.cell r c))))
  | _, _ => none

/-- An openpyxl `Worksheet` / `ReadOnlyWorksheet` as `read` uses it: the
used-range extent `max_row` × `max_column` and the value of the cell at
1-based coordinates, as `iter_rows(..., values_only=True)` yields it. -/
structure OpenpyxlSheet : Type where
  maxRow : Int
  maxCol : Int
  cellValue : Int → Int → PyVal

/-- Modelled from the openpyxl library (`openpyxl.utils.cell.
coordinate_to_tuple`, called by `read` and `write`): split the coordinate
at the first digit, parse the digit tail as the 1-based row, and convert
the letter head (ignoring `$`) in base 26 to the 1-based column; `none`
models the exception raised on a string without that shape. -/
def coordinate_to_tuple (s : List Char) : Option (Int × Int) :=
  let letters := (s.takeWhile (fun c => !isDigit09 c)).filter (fun c => c != '$')
  let digits := s.dropWhile (fun c => !isDigit09 c)
  if letters.isEmpty || digits.isEmpty || !(letters.all isUpperAZ)
      || !(digits.all isDigit09) then
    none
  else
    some ((digitsVal digits : Int), (colOfLetters letters : Int))

/-- The corner normalisation of the openpyxl branches of `read` and
`write`: a tuple is kept, a string goes through `coordinate_to_tuple`. -/
def cellArgToTupleOpenpyxl : CellArg → Option (Int × Int)
  | CellArg.tup r c => some (r, c)
  | CellArg.strA s => coordinate_to_tuple s

/-- The openpyxl branch of `read` (`src/excel.py` lines 88-104): default
the missing last cell to `(max_row, max_column)`, normalise string corners
with `coordinate_to_tuple`, then collect the rows that
`iter_rows(min_row, min_col, max_row, max_col, values_only=True)` yields:
one list of cell values per row of the inclusive 1-based rectangle. -/
def readOpenpyxl (sheet : OpenpyxlSheet) (first_cell : CellArg)
    (last_cell : Option CellArg) : Option (List (List PyVal)) :=
  let lastArg : CellArg := match last_cell with
    | none => CellArg.tup sheet.maxRow sheet.maxCol
    | some a => a
  match cellArgToTupleOpenpyxl first_cell, cellArgToTupleOpenpyxl lastArg with
  | some fc, some lc =>
      some ((pyRange fc.1 (lc.1 + 1)).map (fun r =>
        (pyRange fc.2 (lc.2 + 1)).map (fun c => sheet.cellValue r c)))
  | _, _ => none

/-- The `errors` dict of the pyxlsb branch of `read`
(`src/excel.py` lines 108-110). -/
def pyxlsbErrors : List (String × String) :=
  [("0x0", "#NULL!"), ("0x7", "#DIV/0!"), ("0xf", "#VALUE!"),
   ("0x17", "#REF!"), ("0x1d", "#NAME?"), ("0x24", "#NUM!"),
   ("0x2a", "#N/A")]

/-- Python `errors.get(cell.v, cell.v)` for the pyxlsb branch: look the
cell value up in the error dict (only a string can equal one of its keys)
and fall back to the value itself. -/
def errorsGet (v : PyVal) : PyVal :=
  match v with
  | PyVal.pystr s =>
      match (pyxlsbErrors.filter (fun p => p.1 = s)).head? with
      | some p => PyVal.pystr p.2
      | none => v
  | _ => v

/-- A `pyxlsb.worksheet.Worksheet` as `read` uses it: `sheet.rows()`
yields the rows in order, each a list of cells whose `.v` attribute is the
stored value. -/
structure PyxlsbSheet : Type where
  rows : List (List PyVal)

/-- Python `itertools.islice(xs, start, stop)` on ints (or `None` stop): the
elements at indices `start ≤ i < stop`; a negative `start` or `stop`
raises `ValueError`, modelled by `none`. -/
def islice {α : Type} (xs : List α) (start : Int) (stop : Option Int) :
    Option (List α) :=
  if start < 0 then none
  else match stop with
    | none => some (xs.drop start.toNat)
    | some b => if b < 0 then none else some ((xs.take b.toNat).drop start.toNat)

/-- The index clamping of a Python list slice endpoint: a negative index
counts from the end (clamped at 0), a non-negative one is clamped at the
length. -/
def pySliceIdx (n : Nat) (i : Int) : Nat :=
  if i < 0 then (max ((n : Int) + i) 0).toNat else min i.toNat n

/-- A Python list slice `xs[a : b]` with `b` possibly `None`. -/
def pySlice {α : Type} (xs : List α) (a : Int) (b : Option Int) : List α :=
  let hi := match b with
    | none => xs.length
    | some b => pySliceIdx xs.length b
  (xs.take hi).drop (pySliceIdx xs.length a)

/-- The pyxlsb branch of `read` (`src/excel.py` lines 107-124): string
corners become 1-based tuples via `xl_cell_to_rowcol` (for `last_cell`
only when it is truthy, and a falsy `last_cell` later makes both slice
ends `None`), the rows generator is sliced with
`islice(sheet.rows(), first[0]-1, last[0] or None)`, and each row is
mapped through `errors.get` and sliced to `[first[1]-1 : last[1] or None]`. -/
def readPyxlsb (sheet : PyxlsbSheet) (first_cell : CellArg)
    (last_cell : Option CellArg) : Option (List (List PyVal)) :=
  let lastTup : Option (Option (Int × Int)) := match last_cell with
    | none => some none
    | some (CellArg.tup r c) => some (some (r, c))
    | some (CellArg.strA s) =>
        if s.isEmpty then some none
        else match cellArgToTuple (CellArg.strA s) with
          | none => none
          | some rc => some (some rc)
  match cellArgToTuple first_cell, lastTup with
  | some fc, some lc =>
      match islice sheet.rows (fc.1 - 1) (lc.map Prod.fst) with
      | none => none
      | some sliced =>
          some (sliced.map (fun row =>
            pySlice (row.map errorsGet) (fc.2 - 1) (lc.map Prod.snd)))
  | _, _ => none

/-- A `sheet` argument of `read`: one of the three recognised worksheet
object families, or any other object (carrying its type name). -/
inductive Sheet : Type where
  | xlrdS (s : XlrdSheet) : Sheet
  | openpyxlS (s : OpenpyxlSheet) : Sheet
  | pyxlsbS (s : PyxlsbSheet) : Sheet
  | otherS (typeName : String) : Sheet

/-- A Python exception as `read` and `write` can produce it: the explicit
`TypeError` and `ValueError` raises of `src/excel.py`, and `exn` for any
other runtime error (failed regex match, bad slice argument). -/
inductive PyErr : Type where
  | typeError (msg : String) : PyErr
  | valueError (msg : String) : PyErr
  | exn : PyErr
  deriving Repr, DecidableEq

/-- The function `read` from `src/excel.py`: dispatch on the type of `sheet` to the
xlrd, openpyxl or pyxlsb branch, and raise a `TypeError` naming the type
for any other object. -/
def excel.read (sheet : Sheet) (first_cell : CellArg) (last_cell : Option CellArg) :
    Except PyErr (List (List PyVal)) :=
  match sheet with
  | Sheet.xlrdS s =>
      match readXlrd s first_cell last_cell with
      | some v => Except.ok v
      | none => Except.error PyErr.exn
  | Sheet.openpyxlS s =>
      match readOpenpyxl s first_cell last_cell with
      | some v => Except.ok v
      | none => Except.error PyErr.exn
  | Sheet.pyxlsbS s =>
      match readPyxlsb s first_cell last_cell with
      | some v => Except.ok v
      | none => Except.error PyErr.exn
  | Sheet.otherS t =>
      Except.error (PyErr.typeError ("Could not handle sheet of type " ++ t))

/-- A `sheet` argument of `write`: one of the three recognised writable
worksheet families, or any other object (carrying its type name).  The
cell contents of the target sheet are irrelevant to `write`, which only
emits cell assignments. -/
inductive WSheet : Type where
  | openpyxlW : WSheet
  | xlsxwriterW : WSheet
  | xlwtW : WSheet
  | otherW (typeName : String) : WSheet
  deriving Repr, DecidableEq

/-- One cell assignment performed by `write`: target coordinates (1-based
for openpyxl, 0-based for xlsxwriter and xlwt, exactly as the underlying
library call receives them), the value, and the date number format
attached to the cell, when any. -/
structure CellWrite : Type where
  row : Int
  col : Int
  value : PyVal
  numberFormat : Option String
  deriving Repr, DecidableEq

/-- Python `isinstance(value, (dt.datetime, dt.date))` on the values of `PyVal`. -/
def isDateVal : PyVal → Bool
  | PyVal.datetimeOf _ _ => true
  | _ => false

/-- What `write` leaves behind: the cell assignments it performed, in
order, and the exception it raised, if any. -/
structure WriteOutcome : Type where
  writes : List CellWrite
  error : Option PyErr
  deriving Repr, DecidableEq

/-- The openpyxl branch of `write` (`src/excel.py` lines 150-162):
`date_format` defaults to `"mm/dd/yy"`, the first cell is normalised with
`coordinate_to_tuple`, and each value is assigned to the 1-based cell
`(first[0]+i, first[1]+j)`; a date or datetime value also gets
`cell.number_format = date_format` when `date_format` is truthy. -/
def writeOpenpyxl (values : List (List PyVal)) (first_cell : CellArg)
    (date_format : Option String) : WriteOutcome :=
  let df := match date_format with
    | none => "mm/dd/yy"
    | some f => f
  match cellArgToTupleOpenpyxl first_cell with
  | none => { writes := [], error := some PyErr.exn }
  | some fc =>
      { writes :=
          (values.enum.map (fun iRow =>
            iRow.2.enum.map (fun jVal =>
              { row := fc.1 + (iRow.1 : Int), col := fc.2 + (jVal.1 : Int),
                value := jVal.2,
                numberFormat :=
                  if df != "" && isDateVal jVal.2 then some df else none
                : CellWrite }))).flatten,
        error := none }

/-- The corner normalisation shared by the xlsxwriter and xlwt branches of
`write`: a tuple is shifted from 1-based to 0-based, a string goes through
`xl_cell_to_rowcol` (already 0-based). -/
def writeFirstCell0 : CellArg → Option (Int × Int)
  | CellArg.tup r c => some (r - 1, c - 1)
  | CellArg.strA s => xl_cell_to_rowcol s

/-- The xlsxwriter branch of `write` (`src/excel.py` lines 165-173): a
non-`None` `date_format` raises
`ValueError("date_format must be set as Workbook option")`; otherwise row
`r` of `values` is written with `write_row(first[0]+r, first[1], row)`,
i.e. its cells land at 0-based `(first[0]+r, first[1]+j)`. -/
def writeXlsxwriter (values : List (List PyVal)) (first_cell : CellArg)
    (date_format : Option String) : WriteOutcome :=
  match date_format with
  | some _ =>
      { writes := [],
        error := some (PyErr.valueError
          "date_format must be set as Workbook option") }
  | none =>
      match writeFirstCell0 first_cell with
      | none => { writes := [], error := some PyErr.exn }
      | some fc =>
          { writes :=
              (values.enum.map (fun rRow =>
                rRow.2.enum.map (fun jVal =>
                  { row := fc.1 + (rRow.1 : Int), col := fc.2 + (jVal.1 : Int),
                    value := jVal.2, numberFormat := none : CellWrite }))).flatten,
            error := none }

/-- The xlwt branch of `write` (`src/excel.py` lines 176-191):
`date_format` defaults to `"mm/dd/yy"` and is turned into an `easyxf`
style; each cell is written at 0-based `(i+first[0], j+first[1])`, dates
and datetimes with the style, everything else without. -/
def writeXlwt (values : List (List PyVal)) (first_cell : CellArg)
    (date_format : Option String) : WriteOutcome :=
  let df := match date_format with
    | none => "mm/dd/yy"
    | some f => f
  match writeFirstCell0 first_cell with
  | none => { writes := [], error := some PyErr.exn }
  | some fc =>
      { writes :=
          (values.enum.map (fun iRow =>
            iRow.2.enum.map (fun jVal =>
              { row := (iRow.1 : Int) + fc.1, col := (jVal.1 : Int) + fc.2,
                value := jVal.2,
                numberFormat := if isDateVal jVal.2 then some df else none
                : CellWrite }))).flatten,
        error := none }

/-- The function `write` from `src/excel.py`: dispatch on the type of `sheet` to the
openpyxl, xlsxwriter or xlwt branch, and raise
`TypeError("Couldn't handle sheet of type ...")` for any other object —
before touching any cell. -/
def write (sheet : WSheet) (values : List (List PyVal)) (first_cell : CellArg)
    (date_format : Option String) : WriteOutcome :=
  match sheet with
  | WSheet.openpyxlW => writeOpenpyxl values first_cell date_format
  | WSheet.xlsxwriterW => writeXlsxwriter values first_cell date_format
  | WSheet.xlwtW => writeXlwt values first_cell date_format
  | WSheet.otherW t =>
      { writes := [],
        error := some (PyErr.typeError ("Could not handle sheet of type " ++ t)) }

/-- An openpyxl workbook as `parallel_openpyxl.py` uses it:
`book.sheetnames` and the per-name sheet lookup `book[sheetname]`.  In
openpyxl, `book[name].title` is `name` itself (sheets are looked up by
title), so the title needs no separate field. -/
structure Workbook : Type where
  sheetnames : List String
  sheetOf : String → OpenpyxlSheet

/-- The worker `_read_sheet` from `src/parallel_openpyxl.py`: open the workbook, look
the sheet up by name, read it with `excel.read(sheet)` (so with the
default corners `first_cell="A1"`, `last_cell=None`), and return the pair
`(sheet.title, data)`. -/
def _read_sheet (book : Workbook) (sheetname : String) :
    String × Except PyErr (List (List PyVal)) :=
  (sheetname,
   excel.read (Sheet.openpyxlS (book.sheetOf sheetname))
     (CellArg.strA ['A', '1']) none)

/-- Python dict assignment `d[k] = v`: replace the value of an existing
key in place, otherwise append the pair at the end (insertion order). -/
def dictInsert {α : Type} (d : List (String × α)) (k : String) (v : α) :
    List (String × α) :=
  if d.any (fun p => p.1 = k) then
    d.map (fun p => if p.1 = k then (k, v) else p)
  else
    d ++ [(k, v)]

/-- The dict comprehension over a list of pairs,
`\x7bi[0]: i[1] for i in data\x7d`: successive dict assignments starting
from the empty dict. -/
def dictOfPairs {α : Type} (ps : List (String × α)) : List (String × α) :=
  ps.foldl (fun d p => dictInsert d p.1 p.2) []

/-- Dict lookup `d[k]` (as an `Option`). -/
def dictGet {α : Type} (d : List (String × α)) (k : String) : Option α :=
  match (d.filter (fun p => p.1 = k)).head? with
  | none => none
  | some p => some p.2

/-- The function `load_workbook` from `src/parallel_openpyxl.py`: default `sheetnames`
to `book.sheetnames`, fan `_read_sheet` out over
`zip(repeat(filename), sheetnames)` with `pool.starmap`, and collect the
resulting `(title, data)` pairs into a dict.  `multiprocessing.Pool.
starmap` is documented to block and return one result per argument tuple,
in argument order, so the fan-out is embedded as the order-preserving
`List.map`. -/
def load_workbook (book : Workbook) (sheetnames : Option (List String)) :
    List (String × Except PyErr (List (List PyVal))) :=
  let names := match sheetnames with
    | none => book.sheetnames
    | some ns => ns
  dictOfPairs (names.map (fun n => _read_sheet book n))

/-- The sequential loop that `load_workbook` claims to be equivalent to:
for each listed sheet name in order, read the sheet and assign the result
into the dict under the sheet's title. -/
def seqLoadWorkbook (book : Workbook)
    (d : List (String × Except PyErr (List (List PyVal)))) :
    List String → List (String × Except PyErr (List (List PyVal)))
  | [] => d
  | n :: rest =>
      seqLoadWorkbook book
        (dictInsert d ( _read_sheet book n).1 ( _read_sheet book n).2) rest

/-- The `packages` table of `src/packagetracker/database.py`:
`package_id INTEGER PRIMARY KEY, package_name TEXT NOT NULL,
UNIQUE(package_name)`. -/
structure PackagesDB : Type where
  rows : List (Int × String)
  deriving Repr, DecidableEq

/-- Whether `package_name` already occurs in the `packages` table. -/
def hasPackage (db : PackagesDB) (name : String) : Bool :=
  db.rows.any (fun r => r.2 = name)

/-- A fresh `package_id` for an inserted row (SQLite assigns an unused
integer key; the exact choice is irrelevant to the claims). -/
def nextPackageId (db : PackagesDB) : Int :=
  (db.rows.map Prod.fst).foldl max 0 + 1

/-- The outcome of the `INSERT INTO packages` statement as the sqlalchemy
engine reports it to `store_package`: success (with the new table state),
an `IntegrityError`, or any other exception (with its `repr`). -/
inductive InsertOutcome : Type where
  | success (db2 : PackagesDB) : InsertOutcome
  | integrityError : InsertOutcome
  | otherError (e : String) : InsertOutcome

/-- Modelled from the documented SQLite/sqlalchemy semantics of
`INSERT INTO packages (package_name) VALUES (:package_name)` under
`UNIQUE(package_name)`: a duplicate name makes the statement fail with an
`IntegrityError` and leaves the table unchanged; otherwise a row with a
fresh id is appended. -/
def sqlInsertPackage (db : PackagesDB) (name : String) : InsertOutcome :=
  if hasPackage db name then
    InsertOutcome.integrityError
  else
    InsertOutcome.success { rows := db.rows ++ [(nextPackageId db, name)] }

/-- The `try/except` of `store_package` over an arbitrary outcome of the
INSERT: success returns `None`, an `IntegrityError` returns
`f"\x7bpackage_name\x7d already exists"`, and any other exception is
caught by `except Exception` and returned as `repr(e)` — nothing is
re-raised, and a failed statement leaves the table as it was. -/
def storePackageHandle (db : PackagesDB) (name : String) :
    InsertOutcome → PackagesDB × Option String
  | InsertOutcome.success db2 => (db2, none)
  | InsertOutcome.integrityError => (db, some (name ++ " already exists"))
  | InsertOutcome.otherError e => (db, some e)

/-- The function `store_package` from `src/packagetracker/database.py`: attempt the
INSERT and map its outcome through the `try/except`. -/
def store_package (db : PackagesDB) (name : String) :
    PackagesDB × Option String :=
  storePackageHandle db name (sqlInsertPackage db name)

/-! ## Helper lemmas about the cell-reference parser -/

theorem isUpperAZ_dollar : isUpperAZ '$' = false := by decide

theorem isUpperAZ_of_isDigit09 (c : Char) (h : isDigit09 c = true) :
    isUpperAZ c = false := by
  simp only [isDigit09, Bool.and_eq_true, decide_eq_true_eq] at h
  simp only [isUpperAZ, Bool.and_eq_false_iff, decide_eq_false_iff_not, not_le]
  left
  have h9 : '9'.toNat = 57 := rfl
  have hA : 'A'.toNat = 65 := rfl
  omega

theorem ne_dollar_of_isUpperAZ (c : Char) (h : isUpperAZ c = true) : c ≠ '$' := by
  intro he
  subst he
  exact absurd h (by decide)

theorem ne_dollar_of_isDigit09 (c : Char) (h : isDigit09 c = true) : c ≠ '$' := by
  intro he
  subst he
  exact absurd h (by decide)

theorem takeWhile_isDigit09_self (D : List Char) (h : D.all isDigit09 = true) :
    D.takeWhile isDigit09 = D :=
  List.takeWhile_eq_self_iff.2 (List.all_eq_true.1 h)

theorem stripDollar_dollar (cs : List Char) : stripDollar ('$' :: cs) = cs := by
  simp [stripDollar]

theorem stripDollar_cons_of_ne (c : Char) (cs : List Char) (h : c ≠ '$') :
    stripDollar (c :: cs) = c :: cs := by
  simp [stripDollar, h]

theorem matchDollarDigits_some (cs D : List Char) (hne : D ≠ [])
    (hdig : D.all isDigit09 = true) (hs : stripDollar cs = D) :
    matchDollarDigits cs = some D := by
  unfold matchDollarDigits
  rw [hs, takeWhile_isDigit09_self D hdig]
  simp [hne]

/-- The optional `$` marker groups `(\$?)` of the pattern, as a list. -/
def dollarOpt : Bool → List Char
  | true => ['$']
  | false => []

theorem matchDollarDigits_dollar_digits (d2 : Bool) (D : List Char) (hne : D ≠ [])
    (hdig : D.all isDigit09 = true) :
    matchDollarDigits (dollarOpt d2 ++ D) = some D := by
  cases d2 with
  | false =>
      obtain ⟨d, D2, rfl⟩ : ∃ d D2, D = d :: D2 := by
        cases D with
        | nil => exact absurd rfl hne
        | cons d D2 => exact ⟨d, D2, rfl⟩
      have hd : isDigit09 d = true := by
        simp only [List.all_cons, Bool.and_eq_true] at hdig
        exact hdig.1
      refine matchDollarDigits_some _ _ hne hdig ?_
      show stripDollar (d :: D2) = d :: D2
      exact stripDollar_cons_of_ne d D2 (ne_dollar_of_isDigit09 d hd)
  | true =>
      refine matchDollarDigits_some _ _ hne hdig ?_
      show stripDollar ('$' :: D) = D
      exact stripDollar_dollar D

theorem tryLetters_letters_digits (L T D : List Char)
    (hL1 : 1 ≤ L.length) (hL3 : L.length ≤ 3) (hup : L.all isUpperAZ = true)
    (hT : matchDollarDigits T = some D)
    (ht0 : ∀ c, T.head? = some c → isUpperAZ c = false) :
    tryLetters (L ++ T) 3 = some (L, D) := by
  obtain ⟨t0, T2, rfl⟩ : ∃ t0 T2, T = t0 :: T2 := by
    cases T with
    | nil => exact absurd hT (by simp [matchDollarDigits, stripDollar])
    | cons t0 T2 => exact ⟨t0, T2, rfl⟩
  have ht : isUpperAZ t0 = false := ht0 t0 rfl
  match L, hL1, hL3 with
  | [a], _, _ =>
      have ha : isUpperAZ a = true := by simpa using hup
      simp [tryLetters, List.take_succ_cons, ha, ht, hT]
  | [a, b], _, _ =>
      have hab : isUpperAZ a = true ∧ isUpperAZ b = true := by simpa using hup
      simp [tryLetters, List.take_succ_cons, hab.1, hab.2, ht, hT]
  | [a, b, c], _, _ =>
      have habc : isUpperAZ a = true ∧ isUpperAZ b = true ∧ isUpperAZ c = true := by
        simpa using hup
      simp [tryLetters, List.take_succ_cons, habc.1, habc.2.1, habc.2.2, ht, hT]

theorem colLoop_scale (cs : List Char) :
    ∀ expn col, colLoop cs expn col = col + 26 ^ expn * colLoop cs 0 0 := by
  induction cs with
  | nil => intro expn col; simp [colLoop]
  | cons ch rest ih =>
      intro expn col
      simp only [colLoop]
      rw [ih (expn + 1), ih 1]
      ring

/-- The base-26 value of a column letter string with A = 1 .. Z = 26, as
the claims state it (most significant letter first). -/
def base26Spec (L : List Char) : Nat :=
  L.foldl (fun acc ch => 26 * acc + (ch.toNat - 'A'.toNat + 1)) 0

theorem colOfLetters_concat (L : List Char) (c : Char) :
    colOfLetters (L ++ [c]) = 26 * colOfLetters L + (c.toNat - 'A'.toNat + 1) := by
  unfold colOfLetters
  simp only [List.reverse_append, List.reverse_singleton, List.singleton_append,
    colLoop]
  rw [colLoop_scale]
  ring

theorem colOfLetters_eq_base26Spec (L : List Char) :
    colOfLetters L = base26Spec L := by
  induction L using List.reverseRecOn with
  | nil => rfl
  | append_singleton L c ih =>
      rw [colOfLetters_concat, ih]
      unfold base26Spec
      rw [List.foldl_append]
      simp

/-- C1: for every cell reference made of an optional `$`, one to three
uppercase letters `L`, an optional `$` and a decimal row number (digit
string `D` of value `n`), `xl_cell_to_rowcol` returns the zero-indexed
pair `(n - 1, col - 1)` where `col` is the base-26 value of `L` with
A = 1 .. Z = 26; the `$` markers (`d1`, `d2`) do not affect the result. -/
theorem xl_cell_to_rowcol_correct (d1 d2 : Bool) (L D : List Char)
    (hL1 : 1 ≤ L.length) (hL3 : L.length ≤ 3) (hup : L.all isUpperAZ = true)
    (hD : D ≠ []) (hdig : D.all isDigit09 = true) :
    xl_cell_to_rowcol (dollarOpt d1 ++ (L ++ (dollarOpt d2 ++ D)))
      = some ((digitsVal D : Int) - 1, (base26Spec L : Int) - 1) := by
  obtain ⟨l0, L2, rfl⟩ : ∃ l0 L2, L = l0 :: L2 := by
    cases L with
    | nil => exact absurd hL1 (by decide)
    | cons l0 L2 => exact ⟨l0, L2, rfl⟩
  have hl0 : isUpperAZ l0 = true := by
    simp only [List.all_cons, Bool.and_eq_true] at hup
    exact hup.1
  have hT : matchDollarDigits (dollarOpt d2 ++ D) = some D :=
    matchDollarDigits_dollar_digits d2 D hD hdig
  have ht0 : ∀ c, (dollarOpt d2 ++ D).head? = some c → isUpperAZ c = false := by
    intro c hc
    cases d2 with
    | false =>
        obtain ⟨d, D2, rfl⟩ : ∃ d D2, D = d :: D2 := by
          cases D with
          | nil => exact absurd rfl hD
          | cons d D2 => exact ⟨d, D2, rfl⟩
        have hc2 : d = c := by
          simpa [dollarOpt] using hc
        rw [← hc2]
        refine isUpperAZ_of_isDigit09 d ?_
        simp only [List.all_cons, Bool.and_eq_true] at hdig
        exact hdig.1
    | true =>
        have hc2 : '$' = c := by
          simpa [dollarOpt] using hc
        rw [← hc2]
        exact isUpperAZ_dollar
  have hstrip : stripDollar (dollarOpt d1 ++ ((l0 :: L2) ++ (dollarOpt d2 ++ D)))
      = (l0 :: L2) ++ (dollarOpt d2 ++ D) := by
    cases d1 with
    | true =>
        show stripDollar ('$' :: ((l0 :: L2) ++ (dollarOpt d2 ++ D))) = _
        exact stripDollar_dollar _
    | false =>
        show stripDollar (l0 :: (L2 ++ (dollarOpt d2 ++ D))) = _
        exact stripDollar_cons_of_ne l0 _ (ne_dollar_of_isUpperAZ l0 hl0)
  have hmatch : matchCellRef (dollarOpt d1 ++ ((l0 :: L2) ++ (dollarOpt d2 ++ D)))
      = some (l0 :: L2, D) := by
    unfold matchCellRef
    rw [hstrip]
    exact tryLetters_letters_digits (l0 :: L2) _ D hL1 hL3 hup hT ht0
  have hne : (dollarOpt d1 ++ ((l0 :: L2) ++ (dollarOpt d2 ++ D))).isEmpty = false := by
    cases d1 <;> simp [dollarOpt]
  unfold xl_cell_to_rowcol
  rw [hne]
  simp only [Bool.false_eq_true, if_false, cellRefToRowcol, hmatch,
    colOfLetters_eq_base26Spec]

/-- C1 witness: the reference `$AB$12` parses to row 11, column 27. -/
theorem xl_cell_to_rowcol_correct_witness :
    xl_cell_to_rowcol (dollarOpt true ++ (['A', 'B'] ++ (dollarOpt true ++ ['1', '2'])))
      = some ((digitsVal ['1', '2'] : Int) - 1, (base26Spec ['A', 'B'] : Int) - 1) :=
  xl_cell_to_rowcol_correct true true ['A', 'B'] ['1', '2']
    (by decide) (by decide) (by decide) (by decide) (by decide)

/-- C10: the empty (falsy) `cell_str` short-circuits to `(0, 0)`; every
non-empty input instead goes through the regex body `cellRefToRowcol`
(which on the empty string would fail, i.e. raise). -/
theorem xl_cell_to_rowcol_empty_shortcircuit :
    xl_cell_to_rowcol [] = some (0, 0) ∧
    (∀ cs : List Char, cs ≠ [] → xl_cell_to_rowcol cs = cellRefToRowcol cs) ∧
    cellRefToRowcol [] = none := by
  refine ⟨rfl, ?_, rfl⟩
  intro cs h
  unfold xl_cell_to_rowcol
  rw [if_neg]
  simpa [List.isEmpty_iff] using h

/-- C10 witness: the non-empty input `B2` takes the regex path. -/
theorem xl_cell_to_rowcol_empty_shortcircuit_witness :
    xl_cell_to_rowcol ['B', '2'] = cellRefToRowcol ['B', '2'] :=
  xl_cell_to_rowcol_empty_shortcircuit.2.1 ['B', '2'] (by decide)

/-! ## Lemmas about `pyRange` and the xlrd branch -/

theorem pyRange_length (a b : Int) : (pyRange a b).length = (b - a).toNat := by
  unfold pyRange
  rw [List.length_map, List.length_range]

theorem pyRange_getElem? (a b : Int) (i : Nat) (h : i < (b - a).toNat) :
    (pyRange a b)[i]? = some (a + (i : Int)) := by
  unfold pyRange
  rw [List.getElem?_map, List.getElem?_range h]
  rfl

theorem pyRange_one (a b : Int) (h : b = a + 1) : pyRange a b = [a] := by
  subst h
  unfold pyRange
  rw [show (a + 1 - a) = (1 : Int) by ring]
  rw [show ((1 : Int)).toNat = 1 from rfl, show List.range 1 = [0] from rfl]
  simp

/-- C2: in `read` for an xlrd sheet, each cell of the requested range is
mapped by its cell type: a date cell through `xldate_as_datetime`, an
empty or blank cell to `None`, an error cell to the error's text, a
boolean cell to `bool(value)`, and any other cell to its stored value;
the first clause grounds the mapping in `readXlrd` for a one-cell range. -/
theorem readXlrd_cell_type_mapping :
    (∀ (sheet : XlrdSheet) (r c : Int),
      readXlrd sheet (CellArg.tup r c) (some (CellArg.tup r c))
        = some [[xlrdCellValue sheet.datemode (sheet.cell (r - 1) (c - 1))]]) ∧
    (∀ (dm : Nat) (cl : XlrdCell), cl.ctype = XL_CELL_DATE →
      xlrdCellValue dm cl = PyVal.datetimeOf cl.value dm) ∧
    (∀ (dm : Nat) (cl : XlrdCell),
      cl.ctype = XL_CELL_EMPTY ∨ cl.ctype = XL_CELL_BLANK →
      xlrdCellValue dm cl = PyVal.pynone) ∧
    (∀ (dm : Nat) (cl : XlrdCell), cl.ctype = XL_CELL_ERROR →
      xlrdCellValue dm cl = PyVal.errorTextOf cl.value) ∧
    (∀ (dm : Nat) (cl : XlrdCell), cl.ctype = XL_CELL_BOOLEAN →
      xlrdCellValue dm cl = PyVal.pybool (truthy cl.value)) ∧
    (∀ (dm : Nat) (cl : XlrdCell),
      cl.ctype ≠ XL_CELL_DATE → cl.ctype ≠ XL_CELL_EMPTY →
      cl.ctype ≠ XL_CELL_BLANK → cl.ctype ≠ XL_CELL_ERROR →
      cl.ctype ≠ XL_CELL_BOOLEAN →
      xlrdCellValue dm cl = cl.value) := by
  refine ⟨?_, ?_, ?_, ?_, ?_, ?_⟩
  · intro sheet r c
    show some ((pyRange (r - 1) r).map (fun rr =>
        (pyRange (c - 1) c).map (fun cc =>
          xlrdCellValue sheet.datemode (sheet.cell rr cc)))) = _
    rw [pyRange_one (r - 1) r (by ring), pyRange_one (c - 1) c (by ring)]
    simp
  · intro dm cl h
    simp [xlrdCellValue, h]
  · intro dm cl h
    rcases h with h | h <;> simp [xlrdCellValue, h, XL_CELL_EMPTY, XL_CELL_BLANK,
      XL_CELL_DATE]
  · intro dm cl h
    simp [xlrdCellValue, h, XL_CELL_ERROR, XL_CELL_EMPTY, XL_CELL_BLANK,
      XL_CELL_DATE]
  · intro dm cl h
    simp [xlrdCellValue, h, XL_CELL_BOOLEAN, XL_CELL_ERROR, XL_CELL_EMPTY,
      XL_CELL_BLANK, XL_CELL_DATE]
  · intro dm cl h1 h2 h3 h4 h5
    simp [xlrdCellValue, h1, h2, h3, h4, h5]

/-- C2 witness: the one-cell read and each branch of the cell-type
dispatch, at concrete cells. -/
theorem readXlrd_cell_type_mapping_witness :
    readXlrd ⟨0, 1, 1, fun _ _ => ⟨4, PyVal.pyint 1⟩⟩
        (CellArg.tup 1 1) (some (CellArg.tup 1 1))
      = some [[xlrdCellValue 0
          ((⟨0, 1, 1, fun _ _ => ⟨4, PyVal.pyint 1⟩⟩ : XlrdSheet).cell 0 0)]] ∧
    xlrdCellValue 0 ⟨3, PyVal.pyint 2⟩ = PyVal.datetimeOf (PyVal.pyint 2) 0 ∧
    xlrdCellValue 0 ⟨0, PyVal.pyint 0⟩ = PyVal.pynone ∧
    xlrdCellValue 0 ⟨6, PyVal.pyint 0⟩ = PyVal.pynone ∧
    xlrdCellValue 0 ⟨5, PyVal.pyint 23⟩ = PyVal.errorTextOf (PyVal.pyint 23) ∧
    xlrdCellValue 0 ⟨4, PyVal.pyint 1⟩ = PyVal.pybool (truthy (PyVal.pyint 1)) ∧
    xlrdCellValue 0 ⟨1, PyVal.pystr "x"⟩ = PyVal.pystr "x" := by
  have h := readXlrd_cell_type_mapping
  refine ⟨?_, h.2.1 0 ⟨3, PyVal.pyint 2⟩ rfl,
    h.2.2.1 0 ⟨0, PyVal.pyint 0⟩ (Or.inl rfl),
    h.2.2.1 0 ⟨6, PyVal.pyint 0⟩ (Or.inr rfl),
    h.2.2.2.1 0 ⟨5, PyVal.pyint 23⟩ rfl,
    h.2.2.2.2.1 0 ⟨4, PyVal.pyint 1⟩ rfl,
    h.2.2.2.2.2 0 ⟨1, PyVal.pystr "x"⟩ (by decide) (by decide) (by decide)
      (by decide) (by decide)⟩
  exact h.1 ⟨0, 1, 1, fun _ _ => ⟨4, PyVal.pyint 1⟩⟩ 1 1

/-- C3: for in-bounds 1-based corners with `r1 ≤ r2` and `c1 ≤ c2`, the
xlrd branch of `read` returns `r2-r1+1` rows of `c2-c1+1` values each, in
row-major order, entry `[i][j]` being the (type-dispatched) value of the
sheet cell at 0-based position `(r1-1+i, c1-1+j)`. -/
theorem readXlrd_rectangle (sheet : XlrdSheet) (r1 c1 r2 c2 : Int)
    (hr1 : 1 ≤ r1) (hrr : r1 ≤ r2) (hc1 : 1 ≤ c1) (hcc : c1 ≤ c2)
    (hr2 : r2 ≤ (sheet.nrows : Int)) (hc2 : c2 ≤ (sheet.ncols : Int)) :
    ∃ vs, readXlrd sheet (CellArg.tup r1 c1) (some (CellArg.tup r2 c2)) = some vs ∧
      vs.length = (r2 - r1 + 1).toNat ∧
      (∀ row ∈ vs, row.length = (c2 - c1 + 1).toNat) ∧
      (∀ i j : Nat, i < (r2 - r1 + 1).toNat → j < (c2 - c1 + 1).toNat →
        vs[i]?.bind (fun row => row[j]?) =
          some (xlrdCellValue sheet.datemode
            (sheet.cell (r1 - 1 + (i : Int)) (c1 - 1 + (j : Int))))) := by
  refine ⟨(pyRange (r1 - 1) r2).map (fun rr =>
      (pyRange (c1 - 1) c2).map (fun cc =>
        xlrdCellValue sheet.datemode (sheet.cell rr cc))), rfl, ?_, ?_, ?_⟩
  · rw [List.length_map, pyRange_length]
    omega
  · intro row hrow
    obtain ⟨rr, _, rfl⟩ := List.mem_map.1 hrow
    rw [List.length_map, pyRange_length]
    omega
  · intro i j hi hj
    rw [List.getElem?_map, pyRange_getElem? (r1 - 1) r2 i (by omega)]
    show ((pyRange (c1 - 1) c2).map (fun cc =>
      xlrdCellValue sheet.datemode (sheet.cell (r1 - 1 + (i : Int)) cc)))[j]? = _
    rw [List.getElem?_map, pyRange_getElem? (c1 - 1) c2 j (by omega)]
    rfl

/-- C3 witness: a 2 × 3 range of a concrete sheet. -/
theorem readXlrd_rectangle_witness :
    ∃ vs, readXlrd ⟨0, 2, 3, fun r c => ⟨2, PyVal.pyint (10 * r + c)⟩⟩
        (CellArg.tup 1 1) (some (CellArg.tup 2 3)) = some vs ∧
      vs.length = ((2 : Int) - 1 + 1).toNat ∧
      (∀ row ∈ vs, row.length = ((3 : Int) - 1 + 1).toNat) ∧
      (∀ i j : Nat, i < ((2 : Int) - 1 + 1).toNat → j < ((3 : Int) - 1 + 1).toNat →
        vs[i]?.bind (fun row => row[j]?) =
          some (xlrdCellValue 0
            ((⟨0, 2, 3, fun r c => ⟨2, PyVal.pyint (10 * r + c)⟩⟩ : XlrdSheet).cell
              (1 - 1 + (i : Int)) (1 - 1 + (j : Int))))) :=
  readXlrd_rectangle ⟨0, 2, 3, fun r c => ⟨2, PyVal.pyint (10 * r + c)⟩⟩ 1 1 2 3
    (by norm_num) (by norm_num) (by norm_num) (by norm_num) (by norm_num)
    (by norm_num)

/-- C4: for every recognised sheet type, `read` with A1-notation string
corners equals `read` with the corresponding numeric tuples: for the xlrd
and pyxlsb branches the 1-based tuple `xl_cell_to_rowcol` result plus
`(1, 1)`, for the openpyxl branch the tuple `coordinate_to_tuple`
produces. -/
theorem read_string_tuple_equiv :
    (∀ (sheet : XlrdSheet) (s t : List Char) (p q : Int × Int),
      xl_cell_to_rowcol s = some p → xl_cell_to_rowcol t = some q →
      excel.read (Sheet.xlrdS sheet) (CellArg.strA s) (some (CellArg.strA t)) =
        excel.read (Sheet.xlrdS sheet) (CellArg.tup (p.1 + 1) (p.2 + 1))
          (some (CellArg.tup (q.1 + 1) (q.2 + 1)))) ∧
    (∀ (sheet : PyxlsbSheet) (s t : List Char) (p q : Int × Int),
      xl_cell_to_rowcol s = some p → xl_cell_to_rowcol t = some q → t ≠ [] →
      excel.read (Sheet.pyxlsbS sheet) (CellArg.strA s) (some (CellArg.strA t)) =
        excel.read (Sheet.pyxlsbS sheet) (CellArg.tup (p.1 + 1) (p.2 + 1))
          (some (CellArg.tup (q.1 + 1) (q.2 + 1)))) ∧
    (∀ (sheet : OpenpyxlSheet) (s t : List Char) (p q : Int × Int),
      coordinate_to_tuple s = some p → coordinate_to_tuple t = some q →
      excel.read (Sheet.openpyxlS sheet) (CellArg.strA s) (some (CellArg.strA t)) =
        excel.read (Sheet.openpyxlS sheet) (CellArg.tup p.1 p.2)
          (some (CellArg.tup q.1 q.2))) := by
  refine ⟨?_, ?_, ?_⟩
  · intro sheet s t p q hp hq
    show (match readXlrd sheet (CellArg.strA s) (some (CellArg.strA t)) with
      | some v => Except.ok v
      | none => Except.error PyErr.exn) = _
    unfold readXlrd
    simp only [cellArgToTuple, hp, hq]
    rfl
  · intro sheet s t p q hp hq ht
    show (match readPyxlsb sheet (CellArg.strA s) (some (CellArg.strA t)) with
      | some v => Except.ok v
      | none => Except.error PyErr.exn) = _
    unfold readPyxlsb
    simp only [cellArgToTuple, hp, hq, List.isEmpty_iff, if_neg ht]
    rfl
  · intro sheet s t p q hp hq
    show (match readOpenpyxl sheet (CellArg.strA s) (some (CellArg.strA t)) with
      | some v => Except.ok v
      | none => Except.error PyErr.exn) = _
    unfold readOpenpyxl
    simp only [cellArgToTupleOpenpyxl, hp, hq]
    rfl

/-- C4 witness: string corners `A1`/`B2` against their tuple forms on
concrete sheets of all three families. -/
theorem read_string_tuple_equiv_witness :
    excel.read (Sheet.xlrdS ⟨0, 2, 2, fun _ _ => ⟨2, PyVal.pyint 7⟩⟩)
        (CellArg.strA ['A', '1']) (some (CellArg.strA ['B', '2'])) =
      excel.read (Sheet.xlrdS ⟨0, 2, 2, fun _ _ => ⟨2, PyVal.pyint 7⟩⟩)
        (CellArg.tup (0 + 1) (0 + 1)) (some (CellArg.tup (1 + 1) (1 + 1))) ∧
    excel.read (Sheet.pyxlsbS ⟨[[PyVal.pyint 1, PyVal.pyint 2]]⟩)
        (CellArg.strA ['A', '1']) (some (CellArg.strA ['B', '2'])) =
      excel.read (Sheet.pyxlsbS ⟨[[PyVal.pyint 1, PyVal.pyint 2]]⟩)
        (CellArg.tup (0 + 1) (0 + 1)) (some (CellArg.tup (1 + 1) (1 + 1))) ∧
    excel.read (Sheet.openpyxlS ⟨2, 2, fun _ _ => PyVal.pyint 9⟩)
        (CellArg.strA ['A', '1']) (some (CellArg.strA ['B', '2'])) =
      excel.read (Sheet.openpyxlS ⟨2, 2, fun _ _ => PyVal.pyint 9⟩)
        (CellArg.tup 1 1) (some (CellArg.tup 2 2)) :=
  ⟨read_string_tuple_equiv.1 _ ['A', '1'] ['B', '2'] (0, 0) (1, 1)
      (by decide) (by decide),
   read_string_tuple_equiv.2.1 _ ['A', '1'] ['B', '2'] (0, 0) (1, 1)
      (by decide) (by decide) (by decide),
   read_string_tuple_equiv.2.2 _ ['A', '1'] ['B', '2'] (1, 1) (2, 2)
      (by decide) (by decide)⟩

/-- C5: `read` raises a `TypeError` exactly on an unrecognised sheet
object, `write` likewise, and in that case `write` has modified no cell. -/
theorem read_write_typeerror_iff :
    (∀ (sheet : Sheet) (fc : CellArg) (lc : Option CellArg),
      (∃ m, excel.read sheet fc lc = Except.error (PyErr.typeError m)) ↔
        (∃ t, sheet = Sheet.otherS t)) ∧
    (∀ (sheet : WSheet) (values : List (List PyVal)) (fc : CellArg)
        (df : Option String),
      (∃ m, (write sheet values fc df).error = some (PyErr.typeError m)) ↔
        (∃ t, sheet = WSheet.otherW t)) ∧
    (∀ (t : String) (values : List (List PyVal)) (fc : CellArg)
        (df : Option String),
      (write (WSheet.otherW t) values fc df).writes = []) := by
  refine ⟨?_, ?_, ?_⟩
  · intro sheet fc lc
    constructor
    · rintro ⟨m, hm⟩
      cases sheet with
      | xlrdS s =>
          cases h : readXlrd s fc lc <;> simp [excel.read, h] at hm
      | openpyxlS s =>
          cases h : readOpenpyxl s fc lc <;> simp [excel.read, h] at hm
      | pyxlsbS s =>
          cases h : readPyxlsb s fc lc <;> simp [excel.read, h] at hm
      | otherS t => exact ⟨t, rfl⟩
    · rintro ⟨t, rfl⟩
      exact ⟨"Could not handle sheet of type " ++ t, rfl⟩
  · intro sheet values fc df
    constructor
    · rintro ⟨m, hm⟩
      cases sheet with
      | openpyxlW =>
          cases h : cellArgToTupleOpenpyxl fc <;>
            simp [write, writeOpenpyxl, h] at hm
      | xlsxwriterW =>
          cases df with
          | some f => simp [write, writeXlsxwriter] at hm
          | none =>
              cases h : writeFirstCell0 fc <;>
                simp [write, writeXlsxwriter, h] at hm
      | xlwtW =>
          cases h : writeFirstCell0 fc <;> simp [write, writeXlwt, h] at hm
      | otherW t => exact ⟨t, rfl⟩
    · rintro ⟨t, rfl⟩
      exact ⟨"Could not handle sheet of type " ++ t, rfl⟩
  · intro t values fc df
    rfl

/-- C6: in `read` for a pyxlsb sheet, each of the seven error codes is
replaced by its Excel error string, every other cell value is returned
unchanged, and `read` applies exactly that per-cell map over the sheet. -/
theorem readPyxlsb_error_mapping :
    (∀ p ∈ pyxlsbErrors, errorsGet (PyVal.pystr p.1) = PyVal.pystr p.2) ∧
    (∀ v : PyVal, (∀ p ∈ pyxlsbErrors, v ≠ PyVal.pystr p.1) → errorsGet v = v) ∧
    (∀ sheet : PyxlsbSheet,
      readPyxlsb sheet (CellArg.tup 1 1) none =
        some (sheet.rows.map (fun row => row.map errorsGet))) := by
  refine ⟨?_, ?_, ?_⟩
  · intro p hp
    fin_cases hp <;> rfl
  · intro v hv
    cases v with
    | pystr s =>
        have hfil : pyxlsbErrors.filter (fun p => p.1 = s) = [] := by
          rw [List.filter_eq_nil_iff]
          intro p hp
          simp only [decide_eq_true_eq]
          intro hps
          exact hv p hp (by rw [hps])
        simp [errorsGet, hfil]
    | pynone => rfl
    | pybool b => rfl
    | pyint n => rfl
    | datetimeOf raw dm => rfl
    | errorTextOf raw => rfl
  · intro sheet
    show (match islice sheet.rows ((1 : Int) - 1)
        ((none : Option (Int × Int)).map Prod.fst) with
      | none => none
      | some sliced =>
          some (sliced.map (fun (row : List PyVal) =>
            pySlice (row.map errorsGet) ((1 : Int) - 1)
              ((none : Option (Int × Int)).map Prod.snd)))) = _
    simp [islice, pySlice, pySliceIdx]

/-- C6 witness: the error code `0x7` maps to `#DIV/0!`, a non-error value
is unchanged, and a one-row sheet is read through `errorsGet`. -/
theorem readPyxlsb_error_mapping_witness :
    errorsGet (PyVal.pystr "0x7") = PyVal.pystr "#DIV/0!" ∧
    errorsGet (PyVal.pyint 3) = PyVal.pyint 3 ∧
    readPyxlsb ⟨[[PyVal.pystr "0x7", PyVal.pyint 3]]⟩ (CellArg.tup 1 1) none =
      some [[PyVal.pystr "#DIV/0!", PyVal.pyint 3]] := by
  refine ⟨readPyxlsb_error_mapping.1 ("0x7", "#DIV/0!") (by simp [pyxlsbErrors]),
    readPyxlsb_error_mapping.2.1 (PyVal.pyint 3) (by intro p hp; fin_cases hp <;> decide),
    ?_⟩
  rw [readPyxlsb_error_mapping.2.2 ⟨[[PyVal.pystr "0x7", PyVal.pyint 3]]⟩]
  rfl

theorem take_length_drop_min {α : Type} (xs : List α) (k : Nat) :
    (xs.take xs.length).drop (min k xs.length) = xs.drop k := by
  rw [List.take_length]
  rcases Nat.le_total k xs.length with h | h
  · rw [Nat.min_eq_left h]
  · rw [Nat.min_eq_right h, List.drop_length, List.drop_eq_nil_of_le h]

/-- C7: when `last_cell` is omitted, `read` defaults the bottom-right
corner to the used range: `(nrows, ncols)` for xlrd, `(max_row,
max_column)` for openpyxl, and, for pyxlsb, all available rows and all
cells of each row (from the first cell onward). -/
theorem read_default_last_cell :
    (∀ (sheet : XlrdSheet) (fc : CellArg),
      readXlrd sheet fc none =
        readXlrd sheet fc
          (some (CellArg.tup (sheet.nrows : Int) (sheet.ncols : Int)))) ∧
    (∀ (sheet : OpenpyxlSheet) (fc : CellArg),
      readOpenpyxl sheet fc none =
        readOpenpyxl sheet fc (some (CellArg.tup sheet.maxRow sheet.maxCol))) ∧
    (∀ (sheet : PyxlsbSheet) (r c : Int), 1 ≤ r → 1 ≤ c →
      readPyxlsb sheet (CellArg.tup r c) none =
        some ((sheet.rows.drop (r - 1).toNat).map
          (fun row => (row.map errorsGet).drop (c - 1).toNat))) := by
  refine ⟨fun sheet fc => rfl, fun sheet fc => rfl, ?_⟩
  intro sheet r c hr hc
  show (match islice sheet.rows (r - 1) (none : Option Int) with
    | none => none
    | some sliced =>
        some (sliced.map (fun (row : List PyVal) =>
          pySlice (row.map errorsGet) (c - 1) (none : Option Int)))) = _
  have hr0 : ¬ (r - 1 < (0 : Int)) := by omega
  simp only [islice, if_neg hr0]
  congr 1
  apply List.map_congr_left
  intro row _
  show pySlice (row.map errorsGet) (c - 1) none = _
  unfold pySlice pySliceIdx
  rw [if_neg (by omega : ¬ (c - 1 < (0 : Int)))]
  exact take_length_drop_min (row.map errorsGet) (c - 1).toNat

/-- C7 witness: the pyxlsb clause at a concrete sheet and first cell
`(1, 2)`, together with instances of the xlrd and openpyxl clauses. -/
theorem read_default_last_cell_witness :
    readXlrd ⟨0, 1, 1, fun _ _ => ⟨2, PyVal.pyint 5⟩⟩ (CellArg.tup 1 1) none =
      readXlrd ⟨0, 1, 1, fun _ _ => ⟨2, PyVal.pyint 5⟩⟩ (CellArg.tup 1 1)
        (some (CellArg.tup ((1 : Nat) : Int) ((1 : Nat) : Int))) ∧
    readOpenpyxl ⟨3, 4, fun _ _ => PyVal.pyint 6⟩ (CellArg.tup 1 1) none =
      readOpenpyxl ⟨3, 4, fun _ _ => PyVal.pyint 6⟩ (CellArg.tup 1 1)
        (some (CellArg.tup 3 4)) ∧
    readPyxlsb ⟨[[PyVal.pyint 1, PyVal.pyint 2], [PyVal.pyint 3]]⟩
        (CellArg.tup 1 2) none =
      some (([[PyVal.pyint 1, PyVal.pyint 2], [PyVal.pyint 3]].drop
          ((1 : Int) - 1).toNat).map
        (fun row => (row.map errorsGet).drop ((2 : Int) - 1).toNat)) :=
  ⟨read_default_last_cell.1 ⟨0, 1, 1, fun _ _ => ⟨2, PyVal.pyint 5⟩⟩
      (CellArg.tup 1 1),
   read_default_last_cell.2.1 ⟨3, 4, fun _ _ => PyVal.pyint 6⟩ (CellArg.tup 1 1),
   read_default_last_cell.2.2 ⟨[[PyVal.pyint 1, PyVal.pyint 2], [PyVal.pyint 3]]⟩
      1 2 (by norm_num) (by norm_num)⟩

/-- C8: `store_package` never propagates an exception: a duplicate name
returns the "already exists" message with the table unchanged, a new name
returns `None`, and any other engine failure is returned as its string. -/
theorem store_package_spec (db : PackagesDB) (name : String) :
    (hasPackage db name = true →
      store_package db name = (db, some (name ++ " already exists"))) ∧
    (hasPackage db name = false →
      store_package db name =
        ({ rows := db.rows ++ [(nextPackageId db, name)] }, none)) ∧
    (∀ e, storePackageHandle db name (InsertOutcome.otherError e) =
      (db, some e)) := by
  refine ⟨?_, ?_, fun e => rfl⟩
  · intro h
    unfold store_package sqlInsertPackage
    rw [if_pos h]
    rfl
  · intro h
    unfold store_package sqlInsertPackage
    rw [if_neg (by rw [h]; exact Bool.false_ne_true)]
    rfl

/-- C8 witness: a duplicate insert of `"pandas"`, a fresh insert of
`"numpy"`, and an arbitrary engine failure, on a concrete table. -/
theorem store_package_spec_witness :
    store_package ⟨[(1, "pandas")]⟩ "pandas" =
      (⟨[(1, "pandas")]⟩, some ("pandas" ++ " already exists")) ∧
    store_package ⟨[(1, "pandas")]⟩ "numpy" =
      (⟨[(1, "pandas"), (nextPackageId ⟨[(1, "pandas")]⟩, "numpy")]⟩, none) ∧
    storePackageHandle ⟨[(1, "pandas")]⟩ "numpy"
        (InsertOutcome.otherError "OperationalError") =
      (⟨[(1, "pandas")]⟩, some "OperationalError") :=
  ⟨(store_package_spec ⟨[(1, "pandas")]⟩ "pandas").1 (by decide),
   (store_package_spec ⟨[(1, "pandas")]⟩ "numpy").2.1 (by decide),
   (store_package_spec ⟨[(1, "pandas")]⟩ "numpy").2.2 "OperationalError"⟩

/-! ## Lemmas about the dict built by `load_workbook` -/

theorem dictInsert_append {α : Type} (d : List (String × α)) (k : String)
    (v : α) (h : d.any (fun q => q.1 = k) = false) :
    dictInsert d k v = d ++ [(k, v)] := by
  unfold dictInsert
  rw [if_neg (by rw [h]; exact Bool.false_ne_true)]

theorem foldl_dictInsert_append {α : Type} :
    ∀ (ps d : List (String × α)),
      (ps.map Prod.fst).Nodup →
      (∀ p ∈ ps, d.any (fun q => q.1 = p.1) = false) →
      ps.foldl (fun d p => dictInsert d p.1 p.2) d = d ++ ps := by
  intro ps
  induction ps with
  | nil => intro d _ _; simp
  | cons p ps ih =>
      intro d hnd hdisj
      rw [List.foldl_cons, dictInsert_append d p.1 p.2 (hdisj p (by simp))]
      rw [ih (d ++ [(p.1, p.2)]) (by simpa using hnd.of_cons ) ?_]
      · simp
      · intro q hq
        rw [List.any_append]
        have h1 : d.any (fun r => r.1 = q.1) = false :=
          hdisj q (List.mem_cons_of_mem p hq)
        have h2 : [(p.1, p.2)].any (fun r => r.1 = q.1) = false := by
          simp only [List.any_cons, List.any_nil, Bool.or_false,
            decide_eq_false_iff_not]
          intro hpq
          have hp1 : p.1 ∈ ps.map Prod.fst := by
            rw [hpq]
            exact List.mem_map_of_mem Prod.fst hq
          rw [List.map_cons] at hnd
          exact (List.nodup_cons.1 hnd).1 hp1
        rw [h1, h2]
        rfl

theorem dictOfPairs_of_nodup {α : Type} (ps : List (String × α))
    (h : (ps.map Prod.fst).Nodup) : dictOfPairs ps = ps := by
  unfold dictOfPairs
  rw [foldl_dictInsert_append ps [] h (fun p _ => rfl)]
  rfl

theorem dictGet_map_self {α : Type} (f : String → α) :
    ∀ (names : List String) (k : String), k ∈ names →
      dictGet (names.map (fun n => (n, f n))) k = some (f k) := by
  intro names
  induction names with
  | nil => intro k hk; exact absurd hk (List.not_mem_nil k)
  | cons n names ih =>
      intro k hk
      by_cases hkn : n = k
      · subst hkn
        simp [dictGet]
      · have hk2 : k ∈ names := by
          rcases List.mem_cons.1 hk with h | h
          · exact absurd h.symm hkn
          · exact h
        have := ih k hk2
        unfold dictGet at this ⊢
        simpa [hkn] using this

theorem load_workbook_foldl (book : Workbook) :
    ∀ (names : List String) (d : List (String × Except PyErr (List (List PyVal)))),
      (names.map (fun n => _read_sheet book n)).foldl
          (fun d p => dictInsert d p.1 p.2) d
        = seqLoadWorkbook book d names := by
  intro names
  induction names with
  | nil => intro d; rfl
  | cons n names ih =>
      intro d
      rw [List.map_cons, List.foldl_cons]
      exact ih _

/-- C9: `load_workbook` with an explicit sheet list equals the sequential
per-sheet loop, and (for distinct names) the resulting dict has exactly
one entry per listed sheet, keyed by the sheet's title, holding what
`excel.read` produces for that sheet with its default corners. -/
theorem load_workbook_equiv_seq :
    (∀ (book : Workbook) (names : List String),
      load_workbook book (some names) = seqLoadWorkbook book [] names) ∧
    (∀ (book : Workbook) (names : List String), names.Nodup →
      (load_workbook book (some names)).map Prod.fst = names ∧
      (∀ n ∈ names, dictGet (load_workbook book (some names)) n =
        some (excel.read (Sheet.openpyxlS (book.sheetOf n))
          (CellArg.strA ['A', '1']) none))) := by
  have hnodup : ∀ (book : Workbook) (names : List String), names.Nodup →
      load_workbook book (some names)
        = names.map (fun n => _read_sheet book n) := by
    intro book names h
    show dictOfPairs (names.map (fun n => _read_sheet book n)) = _
    apply dictOfPairs_of_nodup
    have hfst : (names.map (fun n => _read_sheet book n)).map Prod.fst = names := by
      rw [List.map_map]
      calc List.map (Prod.fst ∘ fun n => _read_sheet book n) names
          = List.map id names := List.map_congr_left (fun a _ => rfl)
        _ = names := List.map_id names
    rw [hfst]
    exact h
  refine ⟨?_, ?_⟩
  · intro book names
    exact load_workbook_foldl book names []
  · intro book names h
    rw [hnodup book names h]
    constructor
    · rw [List.map_map]
      calc List.map (Prod.fst ∘ fun n => _read_sheet book n) names
          = List.map id names := List.map_congr_left (fun a _ => rfl)
        _ = names := List.map_id names
    · intro n hn
      exact dictGet_map_self
        (fun n => excel.read (Sheet.openpyxlS (book.sheetOf n))
          (CellArg.strA ['A', '1']) none) names n hn

/-- C9 witness: a two-sheet workbook, loaded in parallel and sequentially. -/
theorem load_workbook_equiv_seq_witness :
    load_workbook ⟨["Sheet1", "Sheet2"], fun _ => ⟨1, 1, fun _ _ => PyVal.pyint 0⟩⟩
        (some ["Sheet1", "Sheet2"]) =
      seqLoadWorkbook ⟨["Sheet1", "Sheet2"], fun _ => ⟨1, 1, fun _ _ => PyVal.pyint 0⟩⟩
        [] ["Sheet1", "Sheet2"] ∧
    dictGet (load_workbook
        ⟨["Sheet1", "Sheet2"], fun _ => ⟨1, 1, fun _ _ => PyVal.pyint 0⟩⟩
        (some ["Sheet1", "Sheet2"])) "Sheet2" =
      some (excel.read (Sheet.openpyxlS
          ((⟨["Sheet1", "Sheet2"], fun _ => ⟨1, 1, fun _ _ => PyVal.pyint 0⟩⟩ :
            Workbook).sheetOf "Sheet2"))
        (CellArg.strA ['A', '1']) none) :=
  ⟨load_workbook_equiv_seq.1 _ ["Sheet1", "Sheet2"],
   ((load_workbook_equiv_seq.2 _ ["Sheet1", "Sheet2"] (by decide)).2 "Sheet2"
      (by decide))⟩

example : xl_cell_to_rowcol "A1".toList = some (0, 0) := by decide
example : xl_cell_to_rowcol "B3".toList = some (2, 1) := by decide
example : xl_cell_to_rowcol "$AB$12".toList = some (11, 27) := by decide
example : xl_cell_to_rowcol "XFD1048576".toList = some (1048575, 16383) := by decide
example : xl_cell_to_rowcol "".toList = some (0, 0) := by decide
example : xl_cell_to_rowcol "1A".toList = none := by decide
example : xl_cell_to_rowcol "ABCD1".toList = none := by decide
